import Mathlib

/-!
Verification development for the genecrawler repository.

The definitions below are a shallow embedding of the Python source:
`genecrawler/utils.py`, `genecrawler/models.py`, `genecrawler/database.py`,
`genecrawler/location.py` and `genecrawler/searchers/geneteka.py`.
Python strings are Lean `String`s, Python `None`-able values are `Option`s,
SQLite tables are lists of row structures, timestamps are explicit `Nat`
parameters, and code that can raise an exception returns `Option`.
-/

/-- The set of characters Python's `str.split()` / `str.strip()` treat as
whitespace (ASCII whitespace, the C1 control spaces, and the Unicode space
separators). -/
def pyIsSpace (c : Char) : Bool :=
  c.toNat = 32 || (9 ≤ c.toNat && c.toNat ≤ 13) || (28 ≤ c.toNat && c.toNat ≤ 31) ||
  c.toNat = 133 || c.toNat = 160 || c.toNat = 5760 ||
  (8192 ≤ c.toNat && c.toNat ≤ 8202) || c.toNat = 8232 || c.toNat = 8233 ||
  c.toNat = 8239 || c.toNat = 8287 || c.toNat = 12288

/-- Case-folding table: upper-case letter to lower-case letter, for the
alphabet the program actually handles (ASCII letters plus the Polish
diacritics used by the voivodeship tables). -/
def lowerPairs : List (Char × Char) :=
  [('A', 'a'), ('B', 'b'), ('C', 'c'), ('D', 'd'), ('E', 'e'), ('F', 'f'),
   ('G', 'g'), ('H', 'h'), ('I', 'i'), ('J', 'j'), ('K', 'k'), ('L', 'l'),
   ('M', 'm'), ('N', 'n'), ('O', 'o'), ('P', 'p'), ('Q', 'q'), ('R', 'r'),
   ('S', 's'), ('T', 't'), ('U', 'u'), ('V', 'v'), ('W', 'w'), ('X', 'x'),
   ('Y', 'y'), ('Z', 'z'),
   ('Ą', 'ą'), ('Ć', 'ć'), ('Ę', 'ę'), ('Ł', 'ł'), ('Ń', 'ń'), ('Ó', 'ó'),
   ('Ś', 'ś'), ('Ź', 'ź'), ('Ż', 'ż')]

/-- Python `str.lower()` on one character, restricted to the alphabet of
`lowerPairs`; other characters are unchanged. -/
def pyCharLower (c : Char) : Char :=
  ((lowerPairs.find? (fun q => q.1 == c)).map Prod.snd).getD c

/-- Python `str.upper()` on one character, the inverse table of
`pyCharLower`. -/
def pyCharUpper (c : Char) : Char :=
  ((lowerPairs.find? (fun q => q.2 == c)).map Prod.fst).getD c

/-- Python `str.strip()` on a character list. -/
def pyStrip (l : List Char) : List Char :=
  (((l.dropWhile pyIsSpace).reverse).dropWhile pyIsSpace).reverse

/-- Python `str.strip()`. -/
def pyStripS (s : String) : String := String.mk (pyStrip s.toList)

/-- Python `str.lower()`. -/
def pyLowerS (s : String) : String := String.mk (s.toList.map pyCharLower)

/-- Python `str.upper()`. -/
def pyUpperS (s : String) : String := String.mk (s.toList.map pyCharUpper)

/-- Worker for Python's no-argument `str.split()`: splits on whitespace
runs, never producing empty tokens.  `acc` holds the (reversed) token
currently being read. -/
def pyTokensAux : List Char → List Char → List (List Char)
  | [], acc => if acc = [] then [] else [acc.reverse]
  | c :: cs, acc =>
    if pyIsSpace c then
      if acc = [] then pyTokensAux cs []
      else acc.reverse :: pyTokensAux cs []
    else pyTokensAux cs (c :: acc)

/-- Python's no-argument `str.split()` on a character list. -/
def pyTokens (l : List Char) : List (List Char) := pyTokensAux l []

/-- Python `str.split(sep)` for a single-character separator: keeps empty
segments, and splitting the empty string yields one empty segment. -/
def splitOnChar (sep : Char) : List Char → List (List Char)
  | [] => [[]]
  | c :: cs =>
    if c = sep then [] :: splitOnChar sep cs
    else
      match splitOnChar sep cs with
      | s :: rest => (c :: s) :: rest
      | [] => [[c]]

/-- Python `place_str.split(',')`. -/
def pySplitOnComma (s : String) : List String :=
  (splitOnChar ',' s.toList).map String.mk

/-- Python substring test `needle in hay`. -/
def containsSub (needle : List Char) : List Char → Bool
  | [] => needle.isEmpty
  | c :: cs => needle.isPrefixOf (c :: cs) || containsSub needle cs

/-- Python substring test on strings. -/
def containsSubS (needle hay : String) : Bool :=
  containsSub needle.toList hay.toList

/-- `full_name.strip().split()[0]` as a total function: `none` when the
token list is empty (in the source this indexing raises `IndexError`). -/
def firstTok (s : String) : Option String :=
  ((pyTokens (pyStrip s.toList)).head?).map String.mk

/-- `utils.extract_first_name`.  The source returns `""` for a falsy
(empty) input and otherwise evaluates `full_name.strip().split()[0]`,
which raises `IndexError` (here: `none`) when the stripped string has no
whitespace tokens. -/
def extract_first_name (full_name : String) : Option String :=
  if full_name = "" then some "" else firstTok full_name

/-- Python truthiness of an `Optional[str]`. -/
def strTruthy : Option String → Bool
  | none => false
  | some s => if s = "" then false else true

/-- `models.Person` (`genecrawler/models.py`).  Optional fields model the
Python `Optional` defaults. -/
structure Person where
  id : String
  given_name : String
  surname : String
  birth_year : Option Int := none
  death_year : Option Int := none
  birth_place : Option String := none
  death_place : Option String := none
  birth_voivodeship : Option String := none
  death_voivodeship : Option String := none
  father_name : Option String := none
  mother_name : Option String := none
deriving DecidableEq

/-- Whether a place string mentions Poland, exactly as the loop body of
`Person.has_polish_connection` tests it:
`'POLAND' in place_upper or 'POLSKA' in place_upper or 'POL' in place_upper`. -/
def mentionsPoland (s : String) : Bool :=
  containsSubS "POLAND" (pyUpperS s) || containsSubS "POLSKA" (pyUpperS s) ||
  containsSubS "POL" (pyUpperS s)

/-- One iteration of the `for place in places` loop in
`Person.has_polish_connection`: the body runs only for a truthy place. -/
def placeMentions : Option String → Bool
  | none => false
  | some s => if s = "" then false else mentionsPoland s

/-- `Person.has_polish_connection` (`genecrawler/models.py`). -/
def has_polish_connection (p : Person) : Bool :=
  if strTruthy p.birth_voivodeship || strTruthy p.death_voivodeship then true
  else if !(strTruthy p.birth_place || strTruthy p.death_place) then true
  else [p.birth_place, p.death_place].any placeMentions

/-- A search-result dictionary as consumed by
`MatchedRecordsDB.upsert_match`; every field is read with
`result.get(key, "")`, so a missing key is the empty string. -/
structure ResultRow where
  given_name : String := ""
  surname : String := ""
  type : String := ""
  voivodeship : String := ""
  year : String := ""
  act : String := ""
  father_given_name : String := ""
  mother_given_name : String := ""
  mother_surname : String := ""
  parish : String := ""
  locality : String := ""
  link : String := ""
deriving DecidableEq

/-- A row of the `matched_records` table (`GeneCrawlerDB._init_database`).
The autoincrement `id` column is not modelled; `found_timestamp` is an
abstract `Nat` clock value. -/
structure MatchedRow where
  person_id : String
  person_given_name : String
  person_surname : String
  record_type : String
  source : String
  voivodeship : String
  year : String
  act : String
  result_given_name : String
  result_surname : String
  father_given_name : String
  mother_given_name : String
  mother_surname : String
  parish : String
  locality : String
  link : String
  raw_data : String
  found_timestamp : Nat
deriving DecidableEq

/-- The `UNIQUE(person_id, source, record_type, year, parish,
result_given_name, result_surname)` tuple of `matched_records`. -/
def matchKey (r : MatchedRow) : List String :=
  [r.person_id, r.source, r.record_type, r.year, r.parish,
   r.result_given_name, r.result_surname]

/-- SQLite `INSERT OR REPLACE` keyed by `matchKey`: any row that conflicts
on the uniqueness tuple is deleted and the fresh row is appended. -/
def insertOrReplace (tbl : List MatchedRow) (r : MatchedRow) : List MatchedRow :=
  tbl.filter (fun x => matchKey x != matchKey r) ++ [r]

/-- Deterministic model of Python `str(result)` stored in `raw_data`. -/
def rawRepr (r : ResultRow) : String :=
  String.intercalate "|"
    [r.given_name, r.surname, r.type, r.voivodeship, r.year, r.act,
     r.father_given_name, r.mother_given_name, r.mother_surname,
     r.parish, r.locality, r.link]

/-- The row inserted by `MatchedRecordsDB.upsert_match` when the names
match; `now` models `CURRENT_TIMESTAMP`. -/
def mkMatchedRow (p : Person) (r : ResultRow) (source : String) (now : Nat) : MatchedRow :=
  { person_id := p.id
    person_given_name := p.given_name
    person_surname := p.surname
    record_type := r.type
    source := source
    voivodeship := r.voivodeship
    year := r.year
    act := r.act
    result_given_name := r.given_name
    result_surname := r.surname
    father_given_name := r.father_given_name
    mother_given_name := r.mother_given_name
    mother_surname := r.mother_surname
    parish := r.parish
    locality := r.locality
    link := r.link
    raw_data := rawRepr r
    found_timestamp := now }

/-- `MatchedRecordsDB.upsert_match` (`genecrawler/database.py`) as a state
transformer on the `matched_records` table.  `none` models an uncaught
exception (either `extract_first_name` call raising `IndexError` on a
non-empty all-whitespace name) — the connection is closed without any
`execute`, so the table is untouched in that case too. -/
def upsert_match (p : Person) (result : ResultRow) (source : String) (now : Nat)
    (tbl : List MatchedRow) : Option (Bool × List MatchedRow) :=
  if result.given_name = "" ∨ result.surname = "" then some (false, tbl)
  else
    match extract_first_name p.given_name, extract_first_name result.given_name with
    | some person_first_name, some result_first_name =>
      if pyStripS (pyLowerS result_first_name) = pyStripS (pyLowerS person_first_name) ∧
         pyStripS (pyLowerS result.surname) = pyStripS (pyLowerS p.surname) then
        some (true, insertOrReplace tbl (mkMatchedRow p result source now))
      else some (false, tbl)
    | _, _ => none

/-- The match decision embedded in `upsert_match` (the name-comparison
logic shared with the spec's `PersonMatchPolicy.isMatch`), detached from
the table mutation: `some b` is the boolean decision, `none` the
`IndexError` path. -/
def isMatchDecision (pg ps rg rs : String) : Option Bool :=
  if rg = "" ∨ rs = "" then some false
  else
    match extract_first_name pg, extract_first_name rg with
    | some pf, some rf =>
      some (decide (pyStripS (pyLowerS rf) = pyStripS (pyLowerS pf) ∧
                    pyStripS (pyLowerS rs) = pyStripS (pyLowerS ps)))
    | _, _ => none

/-- `models.SearchResult`. -/
structure SearchResult where
  source : String
  found : Bool
  record_count : Nat
  details : List ResultRow
  error : Option String := none

/-- The two record tables created by `GeneCrawlerDB._init_database`.
`retrieved_records` has the same column layout as `matched_records`;
no statement anywhere in the repository inserts into it. -/
structure DBState where
  matched_records : List MatchedRow
  retrieved_records : List MatchedRow
deriving DecidableEq

/-- One iteration of the `for detail in result.details` loop of
`utils.process_matches`: upserts the row into `matched_records`. -/
def pmStep (person : Person) (source : String) (now : Nat)
    (acc : Option DBState) (detail : ResultRow) : Option DBState :=
  match acc with
  | none => none
  | some d =>
    match upsert_match person detail source now d.matched_records with
    | none => none
    | some (_, m) => some { d with matched_records := m }

/-- `utils.process_matches`: for a found result, upserts every detail row
through `upsert_match`; `none` models an exception propagating out of the
loop. -/
def process_matches (person : Person) (result : SearchResult) (now : Nat)
    (db : DBState) : Option DBState :=
  if !result.found then some db
  else result.details.foldl (pmStep person result.source now) (some db)

/-- `LocationParser.VOIVODESHIP_MAPPING` (`genecrawler/location.py`),
transcribed verbatim as an association list (Python dict with unique
keys). -/
def VOIVODESHIP_MAPPING : List (String × String) :=
  [("DOLNOŚLĄSKIE", "dolnośląskie"),
   ("DOLNOSLASKIE", "dolnośląskie"),
   ("LOWER SILESIAN VOIVODESHIP", "dolnośląskie"),
   ("LOWER SILESIA", "dolnośląskie"),
   ("KUJAWSKO-POMORSKIE", "kujawsko-pomorskie"),
   ("KUYAVIAN-POMERANIAN VOIVODESHIP", "kujawsko-pomorskie"),
   ("KUYAVIAN-POMERANIAN", "kujawsko-pomorskie"),
   ("LUBELSKIE", "lubelskie"),
   ("LUBLIN VOIVODESHIP", "lubelskie"),
   ("LUBUSKIE", "lubuskie"),
   ("LUBUSZ VOIVODESHIP", "lubuskie"),
   ("ŁÓDZKIE", "łódzkie"),
   ("ŁODZKIE", "łódzkie"),
   ("LODZKIE", "łódzkie"),
   ("LODZ VOIVODESHIP", "łódzkie"),
   ("MAŁOPOLSKIE", "małopolskie"),
   ("MAŁOPOLSKA", "małopolskie"),
   ("MALOPOLSKIE", "małopolskie"),
   ("MALOPOLSKA", "małopolskie"),
   ("LESSER POLAND VOIVODESHIP", "małopolskie"),
   ("LESSER POLAND", "małopolskie"),
   ("MAZOWIECKIE", "mazowieckie"),
   ("MASOVIAN VOIVODESHIP", "mazowieckie"),
   ("MASOVIA", "mazowieckie"),
   ("OPOLSKIE", "opolskie"),
   ("OPOLE VOIVODESHIP", "opolskie"),
   ("PODKARPACKIE", "podkarpackie"),
   ("SUBCARPATHIAN VOIVODESHIP", "podkarpackie"),
   ("SUBCARPATHIA", "podkarpackie"),
   ("PODLASKIE", "podlaskie"),
   ("PODLASIE", "podlaskie"),
   ("PODLACHIA", "podlaskie"),
   ("POMORSKIE", "pomorskie"),
   ("POMERANIAN VOIVODESHIP", "pomorskie"),
   ("POMERANIA", "pomorskie"),
   ("ŚLĄSKIE", "śląskie"),
   ("SLASKIE", "śląskie"),
   ("SILESIAN VOIVODESHIP", "śląskie"),
   ("SILESIA", "śląskie"),
   ("ŚWIĘTOKRZYSKIE", "świętokrzyskie"),
   ("SWIETOKRZYSKIE", "świętokrzyskie"),
   ("HOLY CROSS VOIVODESHIP", "świętokrzyskie"),
   ("WARMIŃSKO-MAZURSKIE", "warmińsko-mazurskie"),
   ("WARMINSKO-MAZURSKIE", "warmińsko-mazurskie"),
   ("WARMIAN-MASURIAN VOIVODESHIP", "warmińsko-mazurskie"),
   ("WIELKOPOLSKIE", "wielkopolskie"),
   ("GREATER POLAND VOIVODESHIP", "wielkopolskie"),
   ("GREATER POLAND", "wielkopolskie"),
   ("ZACHODNIOPOMORSKIE", "zachodniopomorskie"),
   ("WEST POMERANIAN VOIVODESHIP", "zachodniopomorskie"),
   ("WEST POMERANIA", "zachodniopomorskie")]

/-- `region in VOIVODESHIP_MAPPING` / `VOIVODESHIP_MAPPING[region]`. -/
def lookupVoiv (k : String) : Option String :=
  (VOIVODESHIP_MAPPING.find? (fun q => q.1 == k)).map Prod.snd

/-- Association lookup in a keyed table (the SQLite `nominatim_cache`
primary-key lookup or the in-process dict).  The outer `Option` is the
source's `__NOT_CACHED__` sentinel distinction: `none` means no entry at
all, `some v` the stored (possibly NULL) voivodeship. -/
def lookupAssoc (l : List (String × Option String)) (k : String) :
    Option (Option String) :=
  (l.find? (fun q => q.1 == k)).map Prod.snd

/-- `INSERT OR REPLACE INTO nominatim_cache` keyed by the query text. -/
def setAssoc (l : List (String × Option String)) (k : String) (v : Option String) :
    List (String × Option String) :=
  (k, v) :: l.filter (fun q => q.1 != k)

/-- The reply of one `geolocator.geocode` call: a timeout, a service
error, no location, or a location with a formatted address string. -/
inductive GeoReply where
  | errTimeout
  | errService
  | noLoc
  | addr (a : String)

/-- `LocationParser._query_nominatim` (`genecrawler/location.py`).
The geocoder is an oracle `geocode`; the result triple is the returned
voivodeship, the updated persistent `nominatim_cache` table, and the
number of geocoder calls performed.  Timeouts and service errors are
swallowed without caching; an `IndexError` in `c.split(' ')[1]` is
swallowed by the blanket `except` without caching. -/
def query_nominatim (geocode : String → GeoReply)
    (dbCache : List (String × Option String)) (town : String) :
    Option String × List (String × Option String) × Nat :=
  match lookupAssoc dbCache town with
  | some cached => (cached, dbCache, 0)
  | none =>
    match geocode town with
    | .errTimeout => (none, dbCache, 1)
    | .errService => (none, dbCache, 1)
    | .noLoc => (none, setAssoc dbCache town none, 1)
    | .addr a =>
      if a = "" then (none, setAssoc dbCache town none, 1)
      else
        match (pySplitOnComma a).find? (fun c => containsSubS "województwo" c) with
        | none => (none, setAssoc dbCache town none, 1)
        | some c =>
          match (splitOnChar ' ' c.toList)[1]? with
          | none => (none, dbCache, 1)
          | some tok =>
            let v := String.mk (pyStrip tok)
            if v = "" then (none, setAssoc dbCache town none, 1)
            else (some v, setAssoc dbCache town (some v), 1)

/-- The state of a `LocationParser` instance: the in-process `_cache`
dict and the persistent `nominatim_cache` table. -/
structure LPState where
  cache : List (String × Option String)
  dbCache : List (String × Option String)
deriving DecidableEq

/-- `LocationParser.parse_voivodeship` (`genecrawler/location.py`).
`use_nom` is the `use_nominatim` flag (the geolocator exists exactly when
it is set); the result triple is the returned voivodeship, the updated
parser state, and the number of geocoder calls performed. -/
def parse_voivodeship (use_nom : Bool) (geocode : String → GeoReply)
    (st : LPState) (place : Option String) :
    Option String × LPState × Nat :=
  match place with
  | none => (none, st, 0)
  | some ps =>
    if ps = "" then (none, st, 0)
    else
      match lookupAssoc st.cache ps with
      | some v => (v, st, 0)
      | none =>
        let parts := (pySplitOnComma ps).map pyStripS
        let v1 : Option String :=
          match parts[3]? with
          | some r => if r = "" then none else lookupVoiv (pyUpperS r)
          | none => none
        match v1 with
        | some v => (some v, ⟨setAssoc st.cache ps (some v), st.dbCache⟩, 0)
        | none =>
          let town := (parts[0]?).getD ""
          if use_nom ∧ town ≠ "" then
            let q := query_nominatim geocode st.dbCache town
            (q.1, ⟨setAssoc st.cache ps q.1, q.2.1⟩, q.2.2)
          else (none, ⟨setAssoc st.cache ps none, st.dbCache⟩, 0)

/-- The three Geneteka record types searched by `GenetekaSearcher.search`
(`genecrawler/searchers/geneteka.py`). -/
inductive GRecordType where
  | birth
  | marriage
  | death
deriving DecidableEq

/-- The `base_year` entry of the `record_types` list in
`GenetekaSearcher.search`: `person.birth_year`,
`person.birth_year + 25 if person.birth_year else None`, and
`person.death_year` (Python truthiness: the year `0` is falsy). -/
def genetekaBaseYear (p : Person) : GRecordType → Option Int
  | .birth => p.birth_year
  | .marriage =>
    match p.birth_year with
    | some y => if y = 0 then none else some (y + 25)
    | none => none
  | .death => p.death_year

/-- The `(year_before, year_after)` offsets of the `record_types` list. -/
def genetekaOffsets : GRecordType → Int × Int
  | .birth => (-5, 5)
  | .marriage => (-10, 10)
  | .death => (-5, 5)

/-- The `(from_year, to_year)` bounds filled into the Geneteka form:
filled only under `if base_year:` (so not when the base year is absent
— or `0`, which is falsy in Python). -/
def genetekaYearWindow (p : Person) (rt : GRecordType) : Option (Int × Int) :=
  match genetekaBaseYear p rt with
  | some base_year =>
    if base_year = 0 then none
    else some (base_year + (genetekaOffsets rt).1, base_year + (genetekaOffsets rt).2)
  | none => none

/-- The spec's §3 data-model constraint on `birthYear`/`deathYear`:
optional integers extracted as the first 4-digit token matching
`1xxx` or `20xx`. -/
def specYear : Option Int → Prop
  | none => True
  | some y => (1000 ≤ y ∧ y ≤ 1999) ∨ (2000 ≤ y ∧ y ≤ 2099)

/-- The matching condition exactly as claim C1 states it: both row name
fields non-empty, the first whitespace-token of the row's given name
equals the first token of the person's given name case-insensitively
after trimming, and the row's full surname equals the person's surname
case-insensitively after trimming. -/
def c1Cond (pg ps rg rs : String) : Prop :=
  rg ≠ "" ∧ rs ≠ "" ∧
  (∃ a b, firstTok rg = some a ∧ firstTok pg = some b ∧
    pyStripS (pyLowerS a) = pyStripS (pyLowerS b)) ∧
  pyStripS (pyLowerS rs) = pyStripS (pyLowerS ps)

/-- Concrete person used by the `upsert_match` idempotence witness. -/
def pJanW : Person := { id := "P1", given_name := "Jan Walenty", surname := "Nowak" }

/-- Concrete matching result row for `pJanW`. -/
def rowJanNowak : ResultRow := { given_name := "Jan", surname := "Nowak", year := "1881" }

/-- Concrete person used by the C8/C9 examples. -/
def pJanK : Person := { id := "P2", given_name := "Jan", surname := "Kowalski" }

/-- Result row with a non-empty but all-whitespace given name: Python
truthiness accepts it, and `extract_first_name` then raises. -/
def rowSpaceGiven : ResultRow := { given_name := " ", surname := "Kowalski" }

/-- Non-matching result row (prefix of the given name only). -/
def rowJanusz : ResultRow := { given_name := "Janusz", surname := "Kowalski" }

/-- Matching result row for `pJanK`. -/
def rowJanK : ResultRow := { given_name := "Jan", surname := "Kowalski" }

/-- A search result carrying the non-matching row. -/
def resJanusz : SearchResult := { source := "Geneteka", found := true, record_count := 1, details := [rowJanusz] }

/-- A search result carrying the matching row. -/
def resJanK : SearchResult := { source := "Geneteka", found := true, record_count := 1, details := [rowJanK] }

/-- Person with a known foreign place and no region. -/
def pBerlin : Person := { id := "B1", given_name := "Hans", surname := "Schmidt", birth_place := some "Berlin, Germany" }

/-- Person with no location information at all. -/
def pNowhere : Person := { id := "N1", given_name := "Anna", surname := "Nowak" }

/-- Person with a resolved voivodeship. -/
def pVoiv : Person := { id := "V1", given_name := "Anna", surname := "Nowak", birth_voivodeship := some "mazowieckie" }

/-- Person with known birth and death years. -/
def p1880 : Person := { id := "Y1", given_name := "Jan", surname := "Nowak", birth_year := some 1880, death_year := some 1950 }

/-- Geocoder oracle that always times out. -/
def geoT : String → GeoReply := fun _ => GeoReply.errTimeout

/-- Geocoder oracle answering with a typical Nominatim formatted address
for a Polish town: the voivodeship segment follows a comma, so it starts
with a space. -/
def geoWarsaw : String → GeoReply :=
  fun _ => GeoReply.addr "Warszawa, województwo mazowieckie, Polska"

lemma mem_dropWhile_of_neg {p : Char → Bool} {c : Char} :
    ∀ {l : List Char}, c ∈ l → p c = false → c ∈ l.dropWhile p := by
  intro l
  induction l with
  | nil => intro h; cases h
  | cons a l ih =>
    intro hmem hc
    by_cases hpa : p a = true
    · rw [List.dropWhile_cons_of_pos hpa]
      rcases List.mem_cons.1 hmem with h | h
      · subst h; rw [hc] at hpa; cases hpa
      · exact ih h hc
    · rw [List.dropWhile_cons_of_neg hpa]
      exact hmem

lemma exists_nonspace_pyStrip {l : List Char}
    (h : ∃ c ∈ l, pyIsSpace c = false) :
    ∃ c ∈ pyStrip l, pyIsSpace c = false := by
  obtain ⟨c, hc, hs⟩ := h
  refine ⟨c, ?_, hs⟩
  unfold pyStrip
  exact List.mem_reverse.2
    (mem_dropWhile_of_neg (List.mem_reverse.2 (mem_dropWhile_of_neg hc hs)) hs)

lemma pyStrip_ne_nil {l : List Char}
    (h : ∃ c ∈ l, pyIsSpace c = false) : pyStrip l ≠ [] := by
  obtain ⟨c, hc, -⟩ := exists_nonspace_pyStrip h
  exact List.ne_nil_of_mem hc

lemma pyTokensAux_ne_nil :
    ∀ (l acc : List Char), ((∃ c ∈ l, pyIsSpace c = false) ∨ acc ≠ []) →
      pyTokensAux l acc ≠ [] := by
  intro l
  induction l with
  | nil =>
    intro acc h
    rcases h with h | h
    · simp at h
    · unfold pyTokensAux
      rw [if_neg h]
      simp
  | cons c cs ih =>
    intro acc h
    unfold pyTokensAux
    by_cases hsp : pyIsSpace c = true
    · rw [if_pos hsp]
      by_cases hacc : acc = []
      · rw [if_pos hacc]
        apply ih
        left
        rcases h with ⟨d, hd, hds⟩ | hne
        · rcases List.mem_cons.1 hd with rfl | hd'
          · rw [hsp] at hds; cases hds
          · exact ⟨d, hd', hds⟩
        · exact absurd hacc hne
      · rw [if_neg hacc]
        simp
    · rw [if_neg hsp]
      apply ih
      right
      simp

lemma pyTokensAux_mem :
    ∀ (l acc : List Char), (∀ c ∈ acc, pyIsSpace c = false) →
      ∀ t ∈ pyTokensAux l acc, t ≠ [] ∧ ∀ c ∈ t, pyIsSpace c = false := by
  intro l
  induction l with
  | nil =>
    intro acc hacc t ht
    unfold pyTokensAux at ht
    by_cases h : acc = []
    · rw [if_pos h] at ht; cases ht
    · rw [if_neg h] at ht
      rcases List.mem_singleton.1 ht with rfl
      constructor
      · simpa using h
      · intro c hc
        exact hacc c (List.mem_reverse.1 hc)
  | cons c cs ih =>
    intro acc hacc t ht
    unfold pyTokensAux at ht
    by_cases hsp : pyIsSpace c = true
    · rw [if_pos hsp] at ht
      by_cases h : acc = []
      · rw [if_pos h] at ht
        exact ih [] (by simp) t ht
      · rw [if_neg h] at ht
        rcases List.mem_cons.1 ht with rfl | ht'
        · constructor
          · simpa using h
          · intro d hd
            exact hacc d (List.mem_reverse.1 hd)
        · exact ih [] (by simp) t ht'
    · rw [if_neg hsp] at ht
      refine ih (c :: acc) ?_ t ht
      intro d hd
      rcases List.mem_cons.1 hd with rfl | hd'
      · simpa using hsp
      · exact hacc d hd'

lemma pyCharLower_nonspace {c : Char} (h : pyIsSpace c = false) :
    pyIsSpace (pyCharLower c) = false := by
  unfold pyCharLower
  cases hf : lowerPairs.find? (fun q => q.1 == c) with
  | none => simpa using h
  | some q =>
    have hq : q ∈ lowerPairs := List.mem_of_find?_eq_some hf
    have hall : lowerPairs.all (fun p => !(pyIsSpace p.2)) = true := by decide
    have := (List.all_eq_true.1 hall) q hq
    simpa using this

lemma mk_ne_empty {l : List Char} (h : l ≠ []) : String.mk l ≠ "" := by
  intro h2
  apply h
  have := congrArg String.data h2
  simpa using this

lemma firstTok_props {s a : String} (h : firstTok s = some a) :
    a.toList ≠ [] ∧ ∀ c ∈ a.toList, pyIsSpace c = false := by
  unfold firstTok at h
  cases hl : pyTokens (pyStrip s.toList) with
  | nil => rw [hl] at h; simp at h
  | cons x xs =>
    rw [hl] at h
    simp only [List.head?_cons, Option.map_some', Option.some.injEq] at h
    have hx : x ∈ pyTokens (pyStrip s.toList) := by
      rw [hl]; exact List.mem_cons_self x xs
    have hprops := pyTokensAux_mem (pyStrip s.toList) [] (by simp) x hx
    subst h
    exact hprops

lemma token_lower_strip_ne {a : String}
    (h1 : a.toList ≠ []) (h2 : ∀ c ∈ a.toList, pyIsSpace c = false) :
    pyStripS (pyLowerS a) ≠ "" := by
  unfold pyStripS pyLowerS
  apply mk_ne_empty
  apply pyStrip_ne_nil
  obtain ⟨c, hc⟩ := List.exists_mem_of_ne_nil a.toList h1
  exact ⟨pyCharLower c, List.mem_map_of_mem pyCharLower hc,
    pyCharLower_nonspace (h2 c hc)⟩

lemma extract_eq_firstTok {s : String} (h : s ≠ "") :
    extract_first_name s = firstTok s := by
  unfold extract_first_name
  rw [if_neg h]

lemma isMatch_iff (pg ps rg rs : String) :
    isMatchDecision pg ps rg rs = some true ↔ c1Cond pg ps rg rs := by
  unfold isMatchDecision c1Cond
  by_cases hg : rg = ""
  · simp [hg]
  · by_cases hs : rs = ""
    · simp [hg, hs]
    · rw [if_neg (by simp [hg, hs])]
      cases hrt : firstTok rg with
      | none =>
        rw [extract_eq_firstTok hg, hrt]
        cases extract_first_name pg <;> simp [hrt]
      | some a =>
        rw [extract_eq_firstTok hg, hrt]
        by_cases hpg : pg = ""
        · subst hpg
          rw [show extract_first_name "" = some "" from rfl]
          have hprops := firstTok_props hrt
          have hane : pyStripS (pyLowerS a) ≠ "" :=
            token_lower_strip_ne hprops.1 hprops.2
          simp [hrt, hane, show firstTok "" = none from rfl,
            show pyStripS (pyLowerS "") = "" from rfl]
        · rw [extract_eq_firstTok hpg]
          cases hpt : firstTok pg with
          | none => simp [hpt]
          | some b => simp [hpt, hrt, hg, hs]

lemma upsert_match_eq (p : Person) (r : ResultRow) (src : String) (now : Nat)
    (tbl : List MatchedRow) :
    upsert_match p r src now tbl =
      match isMatchDecision p.given_name p.surname r.given_name r.surname with
      | none => none
      | some false => some (false, tbl)
      | some true => some (true, insertOrReplace tbl (mkMatchedRow p r src now)) := by
  unfold upsert_match isMatchDecision
  by_cases h0 : r.given_name = "" ∨ r.surname = ""
  · rw [if_pos h0, if_pos h0]
  · rw [if_neg h0, if_neg h0]
    cases extract_first_name p.given_name with
    | none => cases extract_first_name r.given_name <;> rfl
    | some pf =>
      cases extract_first_name r.given_name with
      | none => rfl
      | some rf =>
        by_cases hc : pyStripS (pyLowerS rf) = pyStripS (pyLowerS pf) ∧
            pyStripS (pyLowerS r.surname) = pyStripS (pyLowerS p.surname)
        · simp [hc]
        · simp [hc]


lemma filter_key_of_insertOrReplace (tbl : List MatchedRow) (r : MatchedRow) :
    (insertOrReplace tbl r).filter (fun x => matchKey x == matchKey r) = [r] := by
  unfold insertOrReplace
  rw [List.filter_append, List.filter_filter]
  have h1 : tbl.filter
      (fun a => (matchKey a == matchKey r) && (matchKey a != matchKey r)) = [] := by
    apply List.filter_eq_nil_iff.2
    intro a _
    cases h : matchKey a == matchKey r <;> simp [bne, h]
  rw [h1]
  simp

lemma filter_ne_of_insertOrReplace (tbl : List MatchedRow) (r : MatchedRow) :
    (insertOrReplace tbl r).filter (fun x => matchKey x != matchKey r) =
      tbl.filter (fun x => matchKey x != matchKey r) := by
  unfold insertOrReplace
  rw [List.filter_append, List.filter_filter]
  have h2 : [r].filter (fun x => matchKey x != matchKey r) = [] := by simp
  rw [h2]
  have h3 : (fun a : MatchedRow =>
      (matchKey a != matchKey r) && (matchKey a != matchKey r)) =
      fun a : MatchedRow => matchKey a != matchKey r := by
    funext a
    exact Bool.and_self _
  rw [h3]
  simp

lemma length_insertOrReplace (tbl : List MatchedRow) (r : MatchedRow) :
    (insertOrReplace tbl r).length =
      (tbl.filter (fun x => matchKey x != matchKey r)).length + 1 := by
  unfold insertOrReplace
  simp

/-- Claim C1: the match decision used when storing a match is positive
exactly when the row's given_name and surname are both non-empty, the
first whitespace-token of the row's given name equals the first token of
the person's given name case-insensitively after trimming, and the row's
full surname equals the person's surname case-insensitively after
trimming; in particular person JAN/KOWALSKI matches row
"jan antoni"/"kowalski" and does not match row "Janusz"/"kowalski". -/
theorem c1_match_decision :
    (∀ pg ps rg rs : String,
      isMatchDecision pg ps rg rs = some true ↔ c1Cond pg ps rg rs) ∧
    isMatchDecision "JAN" "KOWALSKI" "jan antoni" "kowalski" = some true ∧
    isMatchDecision "JAN" "KOWALSKI" "Janusz" "kowalski" = some false :=
  ⟨isMatch_iff, rfl, rfl⟩

/-- Claim C2: a second `upsert_match` with identical arguments leaves
exactly one stored row for the uniqueness tuple, with the second call's
timestamp, and does not grow the table (overwrite, not duplicate). -/
theorem c2_upsert_idempotent (p : Person) (r : ResultRow) (src : String)
    (t1 t2 : Nat) (tbl tbl1 : List MatchedRow)
    (h : upsert_match p r src t1 tbl = some (true, tbl1)) :
    ∃ tbl2,
      upsert_match p r src t2 tbl1 = some (true, tbl2) ∧
      tbl2.filter (fun row => matchKey row == matchKey (mkMatchedRow p r src t2)) =
        [mkMatchedRow p r src t2] ∧
      tbl2.length = tbl1.length := by
  rw [upsert_match_eq] at h
  cases hd : isMatchDecision p.given_name p.surname r.given_name r.surname with
  | none => rw [hd] at h; cases h
  | some b =>
    cases b with
    | false => rw [hd] at h; simp at h
    | true =>
      rw [hd] at h
      simp only [Option.some.injEq, Prod.mk.injEq, true_and] at h
      refine ⟨insertOrReplace tbl1 (mkMatchedRow p r src t2), ?_, ?_, ?_⟩
      · rw [upsert_match_eq, hd]
      · exact filter_key_of_insertOrReplace tbl1 (mkMatchedRow p r src t2)
      · rw [length_insertOrReplace, ← h]
        have hK : matchKey (mkMatchedRow p r src t2) =
            matchKey (mkMatchedRow p r src t1) := rfl
        rw [hK, filter_ne_of_insertOrReplace, length_insertOrReplace]

/-- Witness for C2 at concrete inputs: a matching upsert performed twice
from the empty table. -/
theorem c2_upsert_idempotent_witness :
    ∃ tbl2,
      upsert_match pJanW rowJanNowak "Geneteka" 2
          [mkMatchedRow pJanW rowJanNowak "Geneteka" 1] = some (true, tbl2) ∧
      tbl2.filter (fun row =>
          matchKey row == matchKey (mkMatchedRow pJanW rowJanNowak "Geneteka" 2)) =
        [mkMatchedRow pJanW rowJanNowak "Geneteka" 2] ∧
      tbl2.length = [mkMatchedRow pJanW rowJanNowak "Geneteka" 1].length :=
  c2_upsert_idempotent pJanW rowJanNowak "Geneteka" 1 2 [] _ rfl

/-- Counterexample for C8: a row whose given name is non-empty but
all-whitespace does not match the person, yet `upsert_match` does not
return `false` — it raises `IndexError` (modelled `none`) out of
`extract_first_name`.  The store is still left unchanged, but the claimed
"returns false" contract is violated. -/
theorem c8_counterexample :
    rowSpaceGiven.given_name ≠ "" ∧ rowSpaceGiven.surname ≠ "" ∧
    ¬ c1Cond pJanK.given_name pJanK.surname
        rowSpaceGiven.given_name rowSpaceGiven.surname ∧
    upsert_match pJanK rowSpaceGiven "Geneteka" 0 [] = none := by
  refine ⟨by decide, by decide, ?_, rfl⟩
  rintro ⟨-, -, ⟨a, b, ha, -, -⟩, -⟩
  rw [show firstTok rowSpaceGiven.given_name = none from rfl] at ha
  cases ha

/-- Claim C8 (amended): when the row lacks a non-empty name pair or the
names do not match, `upsert_match` either returns `false` with the table
unchanged, or — when a non-empty given name consists only of whitespace,
so first-token extraction raises — propagates the exception (`none`),
also with the table unchanged; in no case is a non-matching record
stored. -/
theorem c8_no_false_insert (p : Person) (r : ResultRow) (src : String)
    (now : Nat) (tbl : List MatchedRow)
    (h : ¬ c1Cond p.given_name p.surname r.given_name r.surname) :
    upsert_match p r src now tbl = some (false, tbl) ∨
    upsert_match p r src now tbl = none := by
  rw [upsert_match_eq]
  cases hd : isMatchDecision p.given_name p.surname r.given_name r.surname with
  | none => right; rfl
  | some b =>
    cases b with
    | false => left; rfl
    | true => exact absurd ((isMatch_iff _ _ _ _).1 hd) h

/-- Witness for C8 (amended) at concrete inputs: the non-matching row
"Janusz" leaves the table unchanged. -/
theorem c8_no_false_insert_witness :
    upsert_match pJanK rowJanusz "Geneteka" 0 [] = some (false, []) ∨
    upsert_match pJanK rowJanusz "Geneteka" 0 [] = none := by
  apply c8_no_false_insert
  rintro ⟨-, -, ⟨a, b, ha, hb, hab⟩, -⟩
  rw [show firstTok rowJanusz.given_name = some "Janusz" from rfl] at ha
  rw [show firstTok pJanK.given_name = some "Jan" from rfl] at hb
  cases ha
  cases hb
  exact absurd hab (by decide)

/-- Counterexample for C10: `extract_first_name` is not total — on the
non-empty all-whitespace string " " the source raises `IndexError`
(modelled as `none`) instead of returning a string. -/
theorem c10_counterexample : extract_first_name " " = none := rfl

/-- Claim C10 (amended): `extract_first_name` returns a string for every
input that is empty or contains at least one non-whitespace character (so
it never errs on such inputs), and returns the empty string on empty
input; only a non-empty input consisting entirely of whitespace makes the
source raise. -/
theorem c10_first_token_totality :
    (∀ s : String, (∃ c ∈ s.toList, pyIsSpace c = false) →
      (extract_first_name s).isSome = true) ∧
    extract_first_name "" = some "" := by
  constructor
  · intro s hs
    have hne : s ≠ "" := by
      rintro rfl
      obtain ⟨c, hc, -⟩ := hs
      simp at hc
    unfold extract_first_name
    rw [if_neg hne]
    unfold firstTok
    have h1 : pyTokens (pyStrip s.toList) ≠ [] :=
      pyTokensAux_ne_nil _ [] (Or.inl (exists_nonspace_pyStrip hs))
    cases hl : pyTokens (pyStrip s.toList) with
    | nil => exact absurd hl h1
    | cons x xs => simp [hl]
  · rfl

/-- Witness for C10 (amended) at a concrete input. -/
theorem c10_first_token_totality_witness :
    (extract_first_name "Jan Walenty").isSome = true :=
  c10_first_token_totality.1 "Jan Walenty" ⟨'J', by decide, by decide⟩

/-- Claim C5: `has_polish_connection` is true whenever a region field is
set, or when neither place string is set (default-domestic), or when a
place string textually names Poland; it is false only when location is
known and explicitly foreign — in particular the Berlin person yields
false and the person with no location data yields true. -/
theorem c5_domestic_connection :
    (∀ p : Person,
      (strTruthy p.birth_voivodeship || strTruthy p.death_voivodeship) = true →
      has_polish_connection p = true) ∧
    (∀ p : Person, strTruthy p.birth_place = false →
      strTruthy p.death_place = false → has_polish_connection p = true) ∧
    (∀ p : Person, (∃ s : String,
        (p.birth_place = some s ∨ p.death_place = some s) ∧
        (containsSubS "POLAND" (pyUpperS s) = true ∨
         containsSubS "POLSKA" (pyUpperS s) = true)) →
      has_polish_connection p = true) ∧
    (∀ p : Person, has_polish_connection p = false →
      (strTruthy p.birth_place || strTruthy p.death_place) = true ∧
      (strTruthy p.birth_voivodeship || strTruthy p.death_voivodeship) = false ∧
      ¬ ∃ s : String,
        (p.birth_place = some s ∨ p.death_place = some s) ∧
        (containsSubS "POLAND" (pyUpperS s) = true ∨
         containsSubS "POLSKA" (pyUpperS s) = true)) ∧
    has_polish_connection pBerlin = false ∧
    has_polish_connection pNowhere = true := by
  have h1 : ∀ p : Person,
      (strTruthy p.birth_voivodeship || strTruthy p.death_voivodeship) = true →
      has_polish_connection p = true := by
    intro p h
    unfold has_polish_connection
    rw [if_pos h]
  have h2 : ∀ p : Person, strTruthy p.birth_place = false →
      strTruthy p.death_place = false → has_polish_connection p = true := by
    intro p hb hd
    unfold has_polish_connection
    by_cases hv : (strTruthy p.birth_voivodeship || strTruthy p.death_voivodeship) = true
    · rw [if_pos hv]
    · rw [if_neg hv, if_pos (by simp [hb, hd])]
  have h3 : ∀ p : Person, (∃ s : String,
      (p.birth_place = some s ∨ p.death_place = some s) ∧
      (containsSubS "POLAND" (pyUpperS s) = true ∨
       containsSubS "POLSKA" (pyUpperS s) = true)) →
      has_polish_connection p = true := by
    rintro p ⟨s, hmem, hc⟩
    have hs : s ≠ "" := by
      rintro rfl
      rcases hc with hc | hc <;> exact absurd hc (by decide)
    have hm : mentionsPoland s = true := by
      unfold mentionsPoland
      rcases hc with hc | hc <;> simp [hc]
    have hp : placeMentions (some s) = true := by
      simp only [placeMentions]
      rw [if_neg hs]
      exact hm
    unfold has_polish_connection
    by_cases hv : (strTruthy p.birth_voivodeship || strTruthy p.death_voivodeship) = true
    · rw [if_pos hv]
    · rw [if_neg hv]
      have htr : strTruthy (some s) = true := by
        simp only [strTruthy]
        rw [if_neg hs]
      rcases hmem with hb | hd
      · rw [if_neg (by simp [hb, htr])]
        simp [hb, hp]
      · rw [if_neg (by simp [hd, htr])]
        simp [hd, hp]
  refine ⟨h1, h2, h3, ?_, rfl, rfl⟩
  intro p hf
  refine ⟨?_, ?_, ?_⟩
  · by_contra hplaces
    have hb : strTruthy p.birth_place = false := by
      cases h : strTruthy p.birth_place
      · rfl
      · exact absurd (by simp [h]) hplaces
    have hd : strTruthy p.death_place = false := by
      cases h : strTruthy p.death_place
      · rfl
      · exact absurd (by simp [h]) hplaces
    rw [h2 p hb hd] at hf
    cases hf
  · cases h : (strTruthy p.birth_voivodeship || strTruthy p.death_voivodeship)
    · rfl
    · rw [h1 p h] at hf; cases hf
  · intro hex
    rw [h3 p hex] at hf
    cases hf

/-- Witness for C5 at concrete inputs. -/
theorem c5_domestic_connection_witness :
    has_polish_connection pVoiv = true ∧ has_polish_connection pNowhere = true :=
  ⟨c5_domestic_connection.1 pVoiv (by decide),
   c5_domestic_connection.2.1 pNowhere rfl rfl⟩

/-- Claim C7: for persons whose optional years have the spec's §3
data-model shape (4-digit years `1xxx`/`20xx`), the Geneteka year window
is birth_year−5 … birth_year+5 for births, (birth_year+25)−10 …
(birth_year+25)+10 for marriages, death_year−5 … death_year+5 for
deaths, and absent whenever the anchor year is unknown. -/
theorem c7_year_windows (p : Person)
    (hb : specYear p.birth_year) (hd : specYear p.death_year) :
    (∀ y : Int, p.birth_year = some y →
      genetekaYearWindow p GRecordType.birth = some (y - 5, y + 5)) ∧
    (∀ y : Int, p.birth_year = some y →
      genetekaYearWindow p GRecordType.marriage =
        some (y + 25 - 10, y + 25 + 10)) ∧
    (∀ y : Int, p.death_year = some y →
      genetekaYearWindow p GRecordType.death = some (y - 5, y + 5)) ∧
    (p.birth_year = none →
      genetekaYearWindow p GRecordType.birth = none ∧
      genetekaYearWindow p GRecordType.marriage = none) ∧
    (p.death_year = none → genetekaYearWindow p GRecordType.death = none) := by
  refine ⟨?_, ?_, ?_, ?_, ?_⟩
  · intro y hy
    rw [hy] at hb
    simp only [specYear] at hb
    have hy0 : y ≠ 0 := by omega
    simp only [genetekaYearWindow, genetekaBaseYear, hy, genetekaOffsets,
      if_neg hy0, Option.some.injEq, Prod.mk.injEq]
    exact ⟨by omega, trivial⟩
  · intro y hy
    rw [hy] at hb
    simp only [specYear] at hb
    have hy0 : y ≠ 0 := by omega
    have hy25 : y + 25 ≠ 0 := by omega
    simp only [genetekaYearWindow, genetekaBaseYear, hy, genetekaOffsets,
      if_neg hy0, if_neg hy25, Option.some.injEq, Prod.mk.injEq]
    exact ⟨by omega, trivial⟩
  · intro y hy
    rw [hy] at hd
    simp only [specYear] at hd
    have hy0 : y ≠ 0 := by omega
    simp only [genetekaYearWindow, genetekaBaseYear, hy, genetekaOffsets,
      if_neg hy0, Option.some.injEq, Prod.mk.injEq]
    exact ⟨by omega, trivial⟩
  · intro hy
    constructor <;> simp [genetekaYearWindow, genetekaBaseYear, hy]
  · intro hy
    simp [genetekaYearWindow, genetekaBaseYear, hy]

/-- Witness for C7 at concrete inputs (birth 1880, death 1950). -/
theorem c7_year_windows_witness :
    genetekaYearWindow p1880 GRecordType.birth = some (1880 - 5, 1880 + 5) ∧
    genetekaYearWindow p1880 GRecordType.marriage =
      some (1880 + 25 - 10, 1880 + 25 + 10) ∧
    genetekaYearWindow p1880 GRecordType.death = some (1950 - 5, 1950 + 5) := by
  have h := c7_year_windows p1880 (by norm_num [p1880, specYear])
    (by norm_num [p1880, specYear])
  exact ⟨h.1 1880 rfl, h.2.1 1880 rfl, h.2.2.1 1950 rfl⟩

/-- Claim C3: a place string whose 4th comma-segment is non-empty and,
upper-cased, a key of the static voivodeship table resolves to the
table's canonical lowercase name with zero geocoder calls; a repeated
call with the exact same string answers from the in-process cache,
changes nothing, and again performs zero geocoder calls. -/
theorem c3_alias_resolution (un : Bool) (geo : String → GeoReply)
    (db : List (String × Option String)) (ps r v : String)
    (h3 : ((pySplitOnComma ps).map pyStripS)[3]? = some r)
    (hr : r ≠ "") (hv : lookupVoiv (pyUpperS r) = some v) :
    parse_voivodeship un geo ⟨[], db⟩ (some ps) =
      (some v, ⟨[(ps, some v)], db⟩, 0) ∧
    parse_voivodeship un geo ⟨[(ps, some v)], db⟩ (some ps) =
      (some v, ⟨[(ps, some v)], db⟩, 0) := by
  have hps : ps ≠ "" := by
    rintro rfl
    rw [show ((pySplitOnComma "").map pyStripS)[3]? = none from rfl] at h3
    cases h3
  constructor
  · simp only [parse_voivodeship, if_neg hps,
      show lookupAssoc ([] : List (String × Option String)) ps = none from rfl,
      h3, if_neg hr, hv, setAssoc, List.filter_nil]
  · simp only [parse_voivodeship, if_neg hps,
      show lookupAssoc [(ps, some v)] ps = some (some v) from by
        simp [lookupAssoc]]

/-- Witness for C3 at a concrete place string with the region alias in
the 4th comma-segment. -/
theorem c3_alias_resolution_witness :
    parse_voivodeship true geoT ⟨[], []⟩
        (some "Kraków, 30-001, powiat krakowski, Małopolskie, Polska") =
      (some "małopolskie",
       ⟨[("Kraków, 30-001, powiat krakowski, Małopolskie, Polska",
          some "małopolskie")], []⟩, 0) :=
  (c3_alias_resolution true geoT []
    "Kraków, 30-001, powiat krakowski, Małopolskie, Polska"
    "Małopolskie" "małopolskie" rfl (by decide) rfl).1

/-- Claim C4: a query cached as resolved-to-absent answers from the
persistent cache with no geocoder call; an uncached query performs
exactly one geocoder call; a timeout or service error is swallowed
without writing to the persistent cache, so a later call retries (makes a
geocoder call again). -/
theorem c4_negative_cache (geo : String → GeoReply)
    (db : List (String × Option String)) (q : String) :
    (lookupAssoc db q = some none → query_nominatim geo db q = (none, db, 0)) ∧
    (lookupAssoc db q = none → (query_nominatim geo db q).2.2 = 1) ∧
    (lookupAssoc db q = none →
      (geo q = GeoReply.errTimeout ∨ geo q = GeoReply.errService) →
      query_nominatim geo db q = (none, db, 1)) ∧
    (lookupAssoc db q = none →
      (geo q = GeoReply.errTimeout ∨ geo q = GeoReply.errService) →
      query_nominatim geo (query_nominatim geo db q).2.1 q =
        query_nominatim geo db q) := by
  have key : lookupAssoc db q = none →
      (geo q = GeoReply.errTimeout ∨ geo q = GeoReply.errService) →
      query_nominatim geo db q = (none, db, 1) := by
    intro h hg
    rcases hg with hg | hg <;> simp [query_nominatim, h, hg]
  refine ⟨?_, ?_, key, ?_⟩
  · intro h
    simp [query_nominatim, h]
  · intro h
    cases hg : geo q with
    | errTimeout => simp [query_nominatim, h, hg]
    | errService => simp [query_nominatim, h, hg]
    | noLoc => simp [query_nominatim, h, hg]
    | addr a =>
      simp only [query_nominatim, h, hg]
      repeat' split
      all_goals rfl
  · intro h hg
    rw [key h hg]
    exact key h hg

/-- Witness for C4 at concrete inputs: a cached-absent query answers with
no call; an uncached query against a timing-out geocoder returns nothing,
leaves the cache unchanged, and made its one call. -/
theorem c4_negative_cache_witness :
    query_nominatim geoT [("Lublin", none)] "Lublin" =
      (none, [("Lublin", none)], 0) ∧
    query_nominatim geoT [] "Pcim" = (none, [], 1) :=
  ⟨(c4_negative_cache geoT [("Lublin", none)] "Lublin").1 rfl,
   (c4_negative_cache geoT [] "Pcim").2.2.1 rfl (Or.inl rfl)⟩

/-- Claim C6 (code bug): on a cache miss, for the typical formatted
address "Warszawa, województwo mazowieckie, Polska" the code returns and
caches the token "województwo" itself — `c.split(' ')[1]` of the chunk
" województwo mazowieckie", whose leading space makes index 1 the marker
word — not the token "mazowieckie" that follows the word as the claim
states. -/
theorem c6_token_after_marker :
    query_nominatim geoWarsaw [] "Warszawa" =
      (some "województwo", [("Warszawa", some "województwo")], 1) ∧
    ("województwo" : String) ≠ "mazowieckie" :=
  ⟨rfl, by decide⟩

lemma foldl_pmStep_none (p : Person) (src : String) (now : Nat) :
    ∀ l : List ResultRow, l.foldl (pmStep p src now) none = none := by
  intro l
  induction l with
  | nil => rfl
  | cons r t ih => exact ih

lemma foldl_pmStep_retr (p : Person) (src : String) (now : Nat) :
    ∀ (l : List ResultRow) (d d' : DBState),
      l.foldl (pmStep p src now) (some d) = some d' →
      d'.retrieved_records = d.retrieved_records := by
  intro l
  induction l with
  | nil =>
    intro d d' h
    obtain rfl := Option.some.inj h
    rfl
  | cons r t ih =>
    intro d d' h
    rw [List.foldl_cons] at h
    cases hs : pmStep p src now (some d) r with
    | none =>
      rw [hs, foldl_pmStep_none] at h
      cases h
    | some d2 =>
      rw [hs] at h
      have h2 : d2.retrieved_records = d.retrieved_records := by
        simp only [pmStep] at hs
        cases hu : upsert_match p r src now d.matched_records with
        | none => rw [hu] at hs; cases hs
        | some pr =>
          rw [hu] at hs
          obtain ⟨b, m⟩ := pr
          simp only [Option.some.injEq] at hs
          rw [← hs]
      exact (ih d2 d' h).trans h2

lemma process_matches_retrieved (p : Person) (res : SearchResult) (now : Nat)
    (db db' : DBState) (h : process_matches p res now db = some db') :
    db'.retrieved_records = db.retrieved_records := by
  unfold process_matches at h
  by_cases hf : (!res.found) = true
  · rw [if_pos hf] at h
    obtain rfl := Option.some.inj h
    rfl
  · rw [if_neg hf] at h
    exact foldl_pmStep_retr p res.source now res.details db db' h

/-- Claim C9 (code bug): no repository code ever inserts into the
`retrieved_records` audit table — processing a search result leaves it
empty whether the row matches (it goes to `matched_records` only) or not
(it is stored nowhere). -/
theorem c9_retrieved_audit_missing :
    process_matches pJanK resJanusz 0 ⟨[], []⟩ = some ⟨[], []⟩ ∧
    process_matches pJanK resJanK 0 ⟨[], []⟩ =
      some ⟨[mkMatchedRow pJanK rowJanK "Geneteka" 0], []⟩ :=
  ⟨rfl, rfl⟩
